import Mathlib

/-!
# xfce4-panel: module registry, control dispatch and the trash plugin

A shallow embedding of `panel/controls.c` and `plugins/trash/trash.c`.

* C strings (`char *`) are `Option String`: `none` is the NULL pointer, and the
  characters of a string are the bytes before the terminating NUL.
* Function pointers are opaque identifiers (`FnPtr`); the code behind them is
  supplied by a `Plugins` record, and every invocation is recorded in the
  event log of the `World`.
* `g_assert` failures and NULL dereferences are the two `Fault`s.
* The enumerators `ICON` and `PLUGIN`, the `settings` globals, `icon_size` and
  `border_width` come from headers that are not part of the sources modelled
  here; they are parameters.
-/

namespace Xfce4Panel

/-! ## glib helpers -/

/-- The ways the host process can die in the modelled code. -/
inductive Fault where
  | assertion_failed
  | segfault
  deriving DecidableEq, Repr

/-- ASCII lower-casing of one character, as glib does for `g_ascii_strcasecmp`. -/
def g_ascii_tolower (c : Char) : Char :=
  if 'A' ≤ c ∧ c ≤ 'Z' then Char.ofNat (c.toNat + 32) else c

/-- The comparison loop of `g_ascii_strcasecmp` over the characters before the
terminating NUL: the difference of the first pair of lower-cased characters
that differ, or of the characters at the position where a string ends. -/
def g_ascii_strcasecmp_chars : List Char → List Char → Int
  | [], [] => 0
  | [], c2 :: _ => 0 - (c2.toNat : Int)
  | c1 :: _, [] => (c1.toNat : Int) - 0
  | c1 :: s1, c2 :: s2 =>
    if g_ascii_tolower c1 ≠ g_ascii_tolower c2 then
      ((g_ascii_tolower c1).toNat : Int) - ((g_ascii_tolower c2).toNat : Int)
    else g_ascii_strcasecmp_chars s1 s2

/-- Model of `g_ascii_strcasecmp`; a NULL argument makes glib return 0
(its `g_return_val_if_fail (s != NULL, 0)` guard). -/
def g_ascii_strcasecmp (s1 s2 : Option String) : Int :=
  match s1, s2 with
  | some a, some b => g_ascii_strcasecmp_chars a.toList b.toList
  | _, _ => 0

/-- Model of `g_slist_find_custom`: the first node whose data makes `func`
return 0, as the sublist starting at that node; `[]` is the NULL result. The
comparator may hit an assertion. -/
def g_slist_find_custom {α β : Type} (list : List α) (data : β)
    (func : α → β → Except Fault Int) : Except Fault (List α) :=
  match list with
  | [] => pure []
  | x :: rest => do
    let r ← func x data
    if r = 0 then pure (x :: rest) else g_slist_find_custom rest data func

/-- Model of `g_slist_append`. -/
def g_slist_append {α : Type} (list : List α) (data : α) : List α :=
  list ++ [data]

/-- Drop the trailing directory separators of a path (helper of
`g_path_get_basename`). -/
def strip_trailing_slashes (s : List Char) : List Char :=
  (s.reverse.dropWhile (fun ch => ch = '/')).reverse

/-- The component after the last directory separator. -/
def last_component (s : List Char) : List Char :=
  (s.reverse.takeWhile (fun ch => ch ≠ '/')).reverse

/-- Model of `g_path_get_basename` on the characters of a path: `"."` for the
empty string, `"/"` for a string of separators only, otherwise the last
component without trailing separators. -/
def g_path_get_basename_chars (s : List Char) : List Char :=
  if s = [] then ['.']
  else if strip_trailing_slashes s = [] then ['/']
  else last_component (strip_trailing_slashes s)

/-- Model of `g_path_get_basename`. -/
def g_path_get_basename (file_name : String) : String :=
  String.mk (g_path_get_basename_chars file_name.toList)

/-! ## Data model -/

/-- Identifier of a function pointer. -/
abbrev FnPtr := Nat

/-- A handle returned by `g_module_open`; `g_module_name` reads `file_name`. -/
structure GModule where
  file_name : String
  deriving DecidableEq, Repr

/-- Model of `g_module_name`. -/
def g_module_name (gm : GModule) : String := gm.file_name

/-- The `PanelModule` descriptor. -/
structure PanelModule where
  name : Option String
  caption : Option String
  id : Int
  gmodule : Option GModule
  create_control : Option FnPtr
  deriving DecidableEq, Repr

/-- The root container `pc->base` (a `GtkBin`): its child and its parent. -/
structure GtkBin where
  child : Option Nat
  parent : Option Nat
  deriving DecidableEq, Repr

/-- The `PanelControl` instance. -/
structure PanelControl where
  index : Int
  id : Int
  filename : Option String
  dirname : Option String
  gmodule : Option GModule
  base : GtkBin
  caption : Option String
  data : Option Nat
  with_popup : Bool
  free : Option FnPtr
  read_config : Option FnPtr
  write_config : Option FnPtr
  attach_callback : Option FnPtr
  add_options : Option FnPtr
  set_orientation : Option FnPtr
  set_size : Option FnPtr
  set_style : Option FnPtr
  set_theme : Option FnPtr
  deriving DecidableEq, Repr

/-- An XML element as far as the core touches it: its name, its attributes
and plugin-defined content. -/
structure XmlNode where
  name : String
  props : List (String × String)
  content : List Nat
  deriving DecidableEq, Repr

/-- Enumerators of the control ids, declared in a header outside the sources. -/
structure Consts where
  ICON : Int
  PLUGIN : Int
  deriving DecidableEq, Repr

/-- The `settings` globals read by the core, with the `icon_size` table and
`border_width`. -/
structure Settings where
  orientation : Int
  size : Int
  style : Int
  theme : Option String
  icon_size : Int → Int
  border_width : Int

/-- Observable calls made by the core. -/
inductive Event where
  | g_module_open (path : String)
  | g_module_close (gm : GModule)
  | g_message (text : String)
  | g_warning (text : String)
  | create_control (f : FnPtr)
  | free (f : FnPtr)
  | read_config (f : FnPtr)
  | write_config (f : FnPtr)
  | attach_callback (f : FnPtr) (signal : String)
  | g_signal_connect (signal : String)
  | set_orientation (f : FnPtr) (orientation : Int)
  | set_size (f : FnPtr) (size : Int)
  | gtk_widget_set_size_request (width height : Int)
  | set_style (f : FnPtr) (style : Int)
  | set_theme (f : FnPtr) (theme : String)
  | groups_show_popup (index : Int) (show_it : Bool)
  deriving DecidableEq, Repr

/-- The static `module_list` and the trace of observable calls. -/
structure World where
  module_list : List PanelModule
  log : List Event
  deriving DecidableEq, Repr

/-- Append one event to the trace. -/
def World.emit (w : World) (e : Event) : World :=
  { w with log := w.log ++ [e] }

/-- The code behind the function pointers of modules and controls. -/
structure Plugins where
  create_control : FnPtr → PanelControl → Bool × PanelControl
  free : FnPtr → PanelControl → PanelControl
  read_config : FnPtr → PanelControl → XmlNode → PanelControl
  write_config : FnPtr → PanelControl → XmlNode → XmlNode
  attach_callback : FnPtr → PanelControl → PanelControl
  set_orientation : FnPtr → PanelControl → Int → PanelControl
  set_size : FnPtr → PanelControl → Int → PanelControl
  set_style : FnPtr → PanelControl → Int → PanelControl
  set_theme : FnPtr → PanelControl → String → PanelControl

/-- The dynamic loader and the file system seen by the module loader:
`xfce_plugin_init` is the result of looking that symbol up in an opened
library, `g_module_error` the loader message after a failed open, and
`short_name_matches` the outcome of the suffix test on a name shorter than the
suffix. -/
structure Loader where
  g_module_open : String → Option GModule
  g_module_error : String → String
  xfce_plugin_init : GModule → Option (PanelModule → PanelModule)
  g_dir_open : String → Option (List String)
  g_build_filename : String → String → String
  G_MODULE_SUFFIX : String
  short_name_matches : String → Bool
  get_plugin_dirs : List String

/-! ## Modules (`controls.c`) -/

/-- Model of `free_module`: the handle is closed only for `id == PLUGIN`. -/
def free_module (c : Consts) (w : World) (module : PanelModule) : World :=
  if module.id = c.PLUGIN then
    match module.gmodule with
    | some gm => w.emit (Event.g_module_close gm)
    | none => w
  else w

/-- Model of `compare_modules`. -/
def compare_modules (module_a module_b : PanelModule) : Except Fault Int :=
  pure (g_ascii_strcasecmp module_a.name module_b.name)

/-- Model of `lookup_modules_by_filename`. -/
def lookup_modules_by_filename (module : PanelModule) (filename : Option String) :
    Except Fault Int :=
  match filename with
  | none => throw Fault.assertion_failed
  | some fname =>
    match module.gmodule with
    | some gm => pure (g_ascii_strcasecmp (some (g_path_get_basename (g_module_name gm))) (some fname))
    | none => pure (-1)

/-- Model of `lookup_modules_by_id`; the id travels as a pointer
(`GINT_TO_POINTER`), so id 0 is the NULL pointer of the assertion. The result
is the truth value of the comparison. -/
def lookup_modules_by_id (module : PanelModule) (id : Int) : Except Fault Int :=
  if id = 0 then throw Fault.assertion_failed
  else pure (if module.id = id then 1 else 0)

/-- Invoke `module->create_control(pc)`. -/
def call_create_control (env : Plugins) (w : World) (li : List PanelModule) (pc : PanelControl) :
    Except Fault (Bool × PanelControl × World) :=
  match li with
  | [] => throw Fault.segfault
  | module :: _ =>
    match module.create_control with
    | none => throw Fault.segfault
    | some f =>
      let r := env.create_control f pc
      pure (r.1, r.2, w.emit (Event.create_control f))

/-- Model of `create_builtin`. -/
def create_builtin (env : Plugins) (w : World) (pc : PanelControl) :
    Except Fault (Bool × PanelControl × World) := do
  let li ← g_slist_find_custom w.module_list pc.id lookup_modules_by_id
  if li = [] then pure (false, pc, w)
  else call_create_control env w li pc

/-- Model of `create_plugin`. -/
def create_plugin (env : Plugins) (w : World) (pc : PanelControl) :
    Except Fault (Bool × PanelControl × World) := do
  let li ← g_slist_find_custom w.module_list pc.filename lookup_modules_by_filename
  if li = [] then pure (false, pc, w)
  else call_create_control env w li pc

/-- Model of `create_launcher`; the search result is dereferenced unchecked. -/
def create_launcher (c : Consts) (env : Plugins) (w : World) (pc : PanelControl) :
    Except Fault (PanelControl × World) := do
  let li ← g_slist_find_custom w.module_list c.ICON lookup_modules_by_id
  let r ← call_create_control env w li pc
  pure (r.2.1, r.2.2)

/-- The text printed for a `%s` argument. -/
def fmt_s (s : Option String) : String := s.getD "(null)"

/-- A zeroed `PanelModule` (`g_new0`). -/
def PanelModule.zeroed : PanelModule :=
  { name := none, caption := none, id := 0, gmodule := none, create_control := none }

/-- Model of `load_plugin`. -/
def load_plugin (c : Consts) (ld : Loader) (w : World) (path : String) : World :=
  let module := PanelModule.zeroed
  let gm := ld.g_module_open path
  let w := w.emit (Event.g_module_open path)
  let module := { module with gmodule := gm }
  match gm with
  | some g =>
    match ld.xfce_plugin_init g with
    | some init =>
      let module := init module
      match g_slist_find_custom w.module_list module compare_modules with
      | Except.ok [] =>
        let w := w.emit (Event.g_message
          ("xfce4: module " ++ fmt_s module.name ++ " successfully loaded"))
        { w with module_list := g_slist_append w.module_list module }
      | _ =>
        let w := w.emit (Event.g_message
          ("xfce4: module " ++ fmt_s module.name ++ " has already been loaded"))
        free_module c w module
    | none =>
      let w := w.emit (Event.g_warning ("xfce4: incompatible module " ++ path))
      w.emit (Event.g_module_close g)
  | none =>
    w.emit (Event.g_warning
      ("xfce4: module " ++ path ++ " cannot be opened (" ++ ld.g_module_error path ++ ")"))

/-- The macro `SOEXT`. -/
def SOEXT (ld : Loader) : String := "." ++ ld.G_MODULE_SUFFIX

/-- The suffix test of `load_plugin_dir`. For a name shorter than the suffix
the C code reads before the start of the name; that outcome is left to
`short_name_matches`. -/
def has_soext (ld : Loader) (file : String) : Bool :=
  if (SOEXT ld).length ≤ file.length then
    decide (file.toList.drop (file.length - (SOEXT ld).length) = (SOEXT ld).toList)
  else ld.short_name_matches file

/-- The `while` loop of `load_plugin_dir` over the names read from the
directory. -/
def load_plugin_dir_loop (c : Consts) (ld : Loader) (dir : String) (w : World) :
    List String → World
  | [] => w
  | file :: rest =>
    let w := if has_soext ld file then load_plugin c ld w (ld.g_build_filename dir file) else w
    load_plugin_dir_loop c ld dir w rest

/-- Model of `load_plugin_dir`. -/
def load_plugin_dir (c : Consts) (ld : Loader) (w : World) (dir : String) : World :=
  match ld.g_dir_open dir with
  | none => w
  | some files => load_plugin_dir_loop c ld dir w files

/-- Model of `add_builtin_modules`. -/
def add_builtin_modules (w : World) : World := w

/-- The function `create_panel_item`, the factory of the launcher. -/
def create_panel_item : FnPtr := 0

/-- The descriptor built by `add_launcher_module`; the id stays zeroed. -/
def launcher_module : PanelModule :=
  { PanelModule.zeroed with
    name := some "icon", caption := some "Launcher", create_control := some create_panel_item }

/-- Model of `add_launcher_module`. -/
def add_launcher_module (w : World) : World :=
  { w with module_list := g_slist_append w.module_list launcher_module }

/-- Model of `modules_init`. -/
def modules_init (c : Consts) (ld : Loader) (w : World) : World :=
  let w := add_launcher_module w
  let w := add_builtin_modules w
  ld.get_plugin_dirs.foldl (load_plugin_dir c ld) w

/-- Model of `modules_cleanup`. -/
def modules_cleanup (c : Consts) (w : World) : World :=
  { (w.module_list.foldl (free_module c) w) with module_list := [] }

/-! ## The PanelControl interface (`controls.c`) -/

/-- Model of `panel_control_read_config`. -/
def panel_control_read_config (env : Plugins) (w : World) (pc : PanelControl) (node : XmlNode) :
    PanelControl × World :=
  match pc.read_config with
  | some f => (env.read_config f pc node, w.emit (Event.read_config f))
  | none => (pc, w)

/-- Model of `panel_control_new`. -/
def panel_control_new (c : Consts) (index : Int) : PanelControl :=
  { index := index, id := c.ICON, filename := none, dirname := none, gmodule := none,
    base := { child := none, parent := none },
    caption := none, data := none, with_popup := true,
    free := none, read_config := none, write_config := none, attach_callback := none,
    add_options := none,
    set_orientation := none, set_size := none, set_style := none, set_theme := none }

/-- Model of `panel_control_set_orientation`. -/
def panel_control_set_orientation (env : Plugins) (w : World) (pc : PanelControl)
    (orientation : Int) : PanelControl × World :=
  match pc.set_orientation with
  | some f => (env.set_orientation f pc orientation, w.emit (Event.set_orientation f orientation))
  | none => (pc, w)

/-- Model of `panel_control_set_size`. -/
def panel_control_set_size (env : Plugins) (st : Settings) (w : World) (pc : PanelControl)
    (size : Int) : PanelControl × World :=
  let s := st.icon_size size + st.border_width
  match pc.set_size with
  | some f => (env.set_size f pc size, w.emit (Event.set_size f size))
  | none => (pc, w.emit (Event.gtk_widget_set_size_request s s))

/-- Model of `panel_control_set_style`. -/
def panel_control_set_style (env : Plugins) (w : World) (pc : PanelControl)
    (style : Int) : PanelControl × World :=
  match pc.set_style with
  | some f => (env.set_style f pc style, w.emit (Event.set_style f style))
  | none => (pc, w)

/-- Model of `panel_control_set_theme`. -/
def panel_control_set_theme (env : Plugins) (w : World) (pc : PanelControl)
    (theme : String) : PanelControl × World :=
  match pc.set_theme with
  | some f => (env.set_theme f pc theme, w.emit (Event.set_theme f theme))
  | none => (pc, w)

/-- Model of `panel_control_set_settings`. -/
def panel_control_set_settings (env : Plugins) (st : Settings) (w : World) (pc : PanelControl) :
    PanelControl × World :=
  let r := panel_control_set_orientation env w pc st.size
  let r := panel_control_set_size env st r.2 r.1 st.size
  let r := panel_control_set_style env r.2 r.1 st.style
  match st.theme with
  | some theme => panel_control_set_theme env r.2 r.1 theme
  | none => r

/-- The `switch (pc->id)` of `create_panel_control`. -/
def create_panel_control_switch (c : Consts) (env : Plugins) (w : World) (pc : PanelControl) :
    Except Fault (PanelControl × World) :=
  if pc.id = c.ICON then create_launcher c env w pc
  else if pc.id = c.PLUGIN then do
    let r ← create_plugin env w pc
    if r.1 then pure (r.2.1, r.2.2)
    else
      create_launcher c env
        (r.2.2.emit (Event.g_warning ("xfce4: failed to load module " ++ fmt_s r.2.1.filename ++ "\n")))
        r.2.1
  else do
    let r ← create_builtin env w pc
    if r.1 then pure (r.2.1, r.2.2) else create_launcher c env r.2.2 r.2.1

/-- The test of the fields "required for proper operation". -/
def lacks_required (pc : PanelControl) : Bool :=
  pc.caption.isNone || pc.attach_callback.isNone || pc.base.child.isNone

/-- The `if` block of `create_panel_control` that follows the switch. -/
def create_panel_control_check (c : Consts) (env : Plugins) (w : World) (pc : PanelControl) :
    Except Fault (PanelControl × World) :=
  if lacks_required pc then
    match pc.free with
    | some f => create_launcher c env (w.emit (Event.free f)) (env.free f pc)
    | none => create_launcher c env w pc
  else pure (pc, w)

/-- The tail of `create_panel_control`: connect the press callback, apply the
settings. -/
def create_panel_control_connect (env : Plugins) (st : Settings) (w : World) (pc : PanelControl) :
    Except Fault (PanelControl × World) :=
  match pc.attach_callback with
  | none => throw Fault.segfault
  | some f =>
    let pc := env.attach_callback f pc
    let w := w.emit (Event.attach_callback f "button-press-event")
    let w := w.emit (Event.g_signal_connect "button-press-event")
    pure (panel_control_set_settings env st w pc)

/-- Model of `create_panel_control`. -/
def create_panel_control (c : Consts) (env : Plugins) (st : Settings) (w : World)
    (pc : PanelControl) : Except Fault (PanelControl × World) := do
  let r ← create_panel_control_switch c env w pc
  let r ← create_panel_control_check c env r.2 r.1
  create_panel_control_connect env st r.2 r.1

/-! ## Saved configuration -/

/-- Model of `xmlGetProp`: the value of the first attribute with that name. -/
def xmlGetProp (node : XmlNode) (name : String) : Option String :=
  (node.props.find? (fun kv => kv.1 = name)).map (fun kv => kv.2)

/-- The characters printed by `%d`. -/
def fmt_d (i : Int) : List Char :=
  if i < 0 then '-' :: Nat.toDigits 10 i.natAbs else Nat.toDigits 10 i.toNat

/-- The white space skipped by `atoi`. -/
def isspace (ch : Char) : Bool :=
  ch = ' ' || ch = '\t' || ch = '\n' || ch = '\x0b' || ch = '\x0c' || ch = '\r'

/-- The digit loop of `atoi`. -/
def atoi_digits (acc : Nat) : List Char → Nat
  | [] => acc
  | ch :: rest =>
    if '0' ≤ ch ∧ ch ≤ '9' then atoi_digits (acc * 10 + (ch.toNat - '0'.toNat)) rest else acc

/-- Model of `atoi`: white space, an optional sign, decimal digits. -/
def atoi (s : String) : Int :=
  match s.toList.dropWhile isspace with
  | '-' :: rest => - (atoi_digits 0 rest : Int)
  | '+' :: rest => (atoi_digits 0 rest : Int)
  | rest => (atoi_digits 0 rest : Int)

/-- The part of `panel_control_set_from_xml` under "get id and filename". -/
def panel_control_get_id_and_filename (c : Consts) (pc : PanelControl) (node : XmlNode) :
    PanelControl :=
  let pc := match xmlGetProp node "id" with
    | some value => { pc with id := atoi value }
    | none => pc
  if pc.id = c.PLUGIN then
    match xmlGetProp node "filename" with
    | some value => { pc with filename := some value }
    | none => pc
  else pc

/-- Model of `panel_control_set_from_xml`; `none` is the NULL node. -/
def panel_control_set_from_xml (c : Consts) (env : Plugins) (st : Settings) (w : World)
    (pc : PanelControl) (node : Option XmlNode) : Except Fault (PanelControl × World) :=
  match node with
  | none => create_panel_control c env st w pc
  | some node => do
    let pc := panel_control_get_id_and_filename c pc node
    let r ← create_panel_control c env st w pc
    let r := panel_control_read_config env r.2 r.1 node
    if !r.1.with_popup && r.1.base.parent.isSome then
      pure (r.1, r.2.emit (Event.groups_show_popup r.1.index false))
    else pure r

/-- The part of `t_trash` that a poll reads or writes, with what the button
shows: its pixbuf and its tooltip. -/
structure t_trash where
  dirname : Option String
  empty : Bool
  shows_full_pb : Bool
  tooltip : String
  deriving DecidableEq, Repr

/-- The file system seen by a poll: the names read from a directory (`none`
when it cannot be opened) and `st_size` as written by a successful `stat`. -/
structure TrashFs where
  g_dir_open : String → Option (List String)
  stat : String → Option Int

/-- Conversion of a wide integer to the 32-bit `int`. -/
def to_int32 (x : Int) : Int :=
  (x + 2147483648) % 4294967296 - 2147483648

/-- The local variables of the counting loop. -/
structure ScanVars where
  st_size : Int
  number : Int
  size : Int
  deriving DecidableEq, Repr

/-- The `while (file)` loop of `check_trash`; a failed `stat` leaves the
buffer as it was. -/
def scan_loop (fs : TrashFs) (v : ScanVars) : List String → ScanVars
  | [] => v
  | file :: rest =>
    let number := to_int32 (v.number + 1)
    let st_size := match fs.stat file with
      | some sz => sz
      | none => v.st_size
    let size := to_int32 (v.size + st_size)
    scan_loop fs { st_size := st_size, number := number, size := size } rest

/-- The tooltip text chosen from the total size. -/
def tooltip_text (number size : Int) : String :=
  if size < 1024 then
    "Trashcan: " ++ String.mk (fmt_d number) ++ " files / " ++ String.mk (fmt_d size) ++ " B"
  else if size < 1024 * 1024 then
    "Trashcan: " ++ String.mk (fmt_d number) ++ " files / "
      ++ String.mk (fmt_d (Int.tdiv size 1024)) ++ " KB"
  else
    "Trashcan: " ++ String.mk (fmt_d number) ++ " files / "
      ++ String.mk (fmt_d (Int.tdiv size (1024 * 1024))) ++ " MB"

/-- Model of `check_trash`; `garbage` is the content of the uninitialised
`struct stat`. -/
def check_trash (fs : TrashFs) (garbage : Int) (trash : t_trash) : t_trash :=
  match trash.dirname with
  | none => trash
  | some dirname =>
    match fs.g_dir_open dirname with
    | some (file :: rest) =>
      let trash := if trash.empty then { trash with empty := false, shows_full_pb := true }
        else trash
      let v := scan_loop fs { st_size := garbage, number := 0, size := 0 } (file :: rest)
      { trash with tooltip := tooltip_text v.number v.size }
    | _ =>
      if !trash.empty then
        { trash with empty := true, shows_full_pb := false, tooltip := "Trashcan: 0 files" }
      else trash

/-! ## Specification vocabulary and sample data -/

/-- A C string holds no NUL character. -/
def no_nul (s : List Char) : Prop := ∀ ch ∈ s, ch ≠ Char.ofNat 0

/-- Equality of two strings ignoring ASCII case. -/
def eq_ignoring_ascii_case (a b : List Char) : Prop :=
  a.map g_ascii_tolower = b.map g_ascii_tolower

/-- The descriptor handed to a plugin initializer by `load_plugin`. -/
def fresh_module (g : GModule) : PanelModule :=
  { PanelModule.zeroed with gmodule := some g }

/-- The function `create_trash_control` of the trash plugin. -/
def create_trash_control : FnPtr := 1

/-- Model of `xfce_plugin_init` of the trash plugin: name, caption and factory
are written, nothing else. -/
def trash_plugin_init (module : PanelModule) : PanelModule :=
  { module with
    name := some "trash", caption := some "Trash can",
    create_control := some create_trash_control }

/-- The handle of the trash plugin in a sample installation. -/
def trash_gmodule : GModule := { file_name := "/usr/lib/xfce4/panel-plugins/libtrash.so" }

/-- The registered descriptor of the trash plugin. -/
def trash_module : PanelModule := trash_plugin_init (fresh_module trash_gmodule)

/-- A loader that opens every path and finds the trash initializer in it; it
scans no directory. -/
def trash_loader : Loader :=
  { g_module_open := fun path => some { file_name := path },
    g_module_error := fun _ => "",
    xfce_plugin_init := fun _ => some trash_plugin_init,
    g_dir_open := fun _ => none,
    g_build_filename := fun dir file => dir ++ "/" ++ file,
    G_MODULE_SUFFIX := "so",
    short_name_matches := fun _ => false,
    get_plugin_dirs := [] }

/-- Sample values of the enumerators. -/
def sample_consts : Consts := { ICON := -2, PLUGIN := -1 }

/-- A registry holding the launcher and the trash plugin. -/
def sample_world : World := { module_list := [launcher_module, trash_module], log := [] }

instance no_nul_decidable (s : List Char) : Decidable (no_nul s) := by
  unfold no_nul
  infer_instance

instance eq_ignoring_ascii_case_decidable (a b : List Char) :
    Decidable (eq_ignoring_ascii_case a b) := by
  unfold eq_ignoring_ascii_case
  infer_instance

/-- The control after its `free` operation ran, when it has one. -/
def freed_control (env : Plugins) (pc : PanelControl) : PanelControl :=
  match pc.free with
  | some f => env.free f pc
  | none => pc

/-- The call of the `free` operation, when the control has one. -/
def free_events (pc : PanelControl) : List Event :=
  match pc.free with
  | some f => [Event.free f]
  | none => []

/-- Sample plugin code: every factory fills in caption, attach_callback and
child; the other operations change nothing. -/
def sample_plugins : Plugins :=
  { create_control := fun f pc =>
      (true, { pc with caption := some "control", attach_callback := some f,
                       base := { pc.base with child := some f } }),
    free := fun _ pc => pc,
    read_config := fun _ pc _ => pc,
    write_config := fun _ _ node => node,
    attach_callback := fun _ pc => pc,
    set_orientation := fun _ pc _ => pc,
    set_size := fun _ pc _ => pc,
    set_style := fun _ pc _ => pc,
    set_theme := fun _ pc _ => pc }

/-- Sample settings. -/
def sample_settings : Settings :=
  { orientation := 1, size := 2, style := 0, theme := some "Curve",
    icon_size := fun _ => 48, border_width := 4 }

/-- A fresh control set up for the trash plugin. -/
def trash_control : PanelControl :=
  { panel_control_new sample_consts 0 with
    id := sample_consts.PLUGIN, filename := some "libtrash.so" }

/-- The initial state of the host: no module registered, nothing logged. -/
def initial_world : World := { module_list := [], log := [] }

/-- A saved element with id -1 and no filename attribute. -/
def plugin_node_without_filename : XmlNode :=
  { name := "Control", props := [("id", "-1")], content := [] }

/-- A module has a library handle and the base name of its library path
equals the filename ignoring ASCII case. -/
def matches_filename (fname : String) (m : PanelModule) : Bool :=
  match m.gmodule with
  | some gm =>
    decide (eq_ignoring_ascii_case (g_path_get_basename (g_module_name gm)).toList fname.toList)
  | none => false

/-- The trash instance as `trash_new` leaves it, for a sample home directory. -/
def sample_trash : t_trash :=
  { dirname := some "/home/user/.xfce/trash", empty := true, shows_full_pb := false,
    tooltip := "Trashcan: 0 files" }

/-- A trash directory with two entries of 1 GiB each. -/
def two_gib_fs : TrashFs :=
  { g_dir_open := fun _ => some ["a.iso", "b.iso"],
    stat := fun _ => some 1073741824 }

/-- A trash directory with an entry of 5 bytes followed by an entry on which
`stat` fails. -/
def stale_stat_fs : TrashFs :=
  { g_dir_open := fun _ => some ["note.txt", "dangling-link"],
    stat := fun file => if file = "note.txt" then some 5 else none }

/-- A trash directory with three small entries. -/
def small_fs : TrashFs :=
  { g_dir_open := fun _ => some ["a", "b", "c"],
    stat := fun _ => some 500 }

/-- The sum of the sizes of the entries on which `stat` succeeds. -/
def sum_of_sizes (fs : TrashFs) (files : List String) : Int :=
  (files.filterMap fs.stat).sum

/-- The tooltip as the specification words it: the total in bytes below 1024,
in kibibytes (integer division by 1024) below 1048576, in mebibytes (integer
division by 1048576) from there on. -/
def tooltip_by_magnitude (number s : Int) : String :=
  if s < 1024 then
    "Trashcan: " ++ String.mk (fmt_d number) ++ " files / " ++ String.mk (fmt_d s) ++ " B"
  else if s < 1048576 then
    "Trashcan: " ++ String.mk (fmt_d number) ++ " files / "
      ++ String.mk (fmt_d (s / 1024)) ++ " KB"
  else
    "Trashcan: " ++ String.mk (fmt_d number) ++ " files / "
      ++ String.mk (fmt_d (s / 1048576)) ++ " MB"

/-! ## Version check and a scanning loader -/

/-- The macro `API_VERSION`. -/
def API_VERSION : Int := 2

/-- Model of `xfce_plugin_check_version`; `none` is the NULL result. -/
def xfce_plugin_check_version (version : Int) : Option String :=
  if version ≠ API_VERSION then some "Incompatible plugin version" else none

/-- A loader with one plugin directory that holds the trash plugin next to a
file that is no library. -/
def scanning_loader : Loader :=
  { trash_loader with
    g_dir_open := fun dir =>
      if dir = "/usr/lib/xfce4/panel-plugins" then some ["README", "libtrash.so"] else none,
    get_plugin_dirs := ["/usr/lib/xfce4/panel-plugins", "/home/user/.xfce4/panel-plugins"] }

/-! ## Theorems -/

theorem char_toNat_ne_zero (ch : Char) (h : ch ≠ Char.ofNat 0) : (ch.toNat : Int) ≠ 0 := by
  intro h0
  apply h
  have h1 : ch.toNat = 0 := by exact_mod_cast h0
  rw [← Char.ofNat_toNat ch, h1]

theorem char_toNat_sub_ne_zero (a b : Char) (h : a ≠ b) : (a.toNat : Int) - (b.toNat : Int) ≠ 0 := by
  intro h0
  apply h
  have h1 : a.toNat = b.toNat := by omega
  rw [← Char.ofNat_toNat a, h1, Char.ofNat_toNat]

theorem strcasecmp_chars_zero_of_eq (a : List Char) :
    ∀ b, eq_ignoring_ascii_case a b → g_ascii_strcasecmp_chars a b = 0 := by
  induction a with
  | nil =>
    intro b h
    cases b with
    | nil => rfl
    | cons c2 s2 => simp [eq_ignoring_ascii_case] at h
  | cons c1 s1 ih =>
    intro b h
    cases b with
    | nil => simp [eq_ignoring_ascii_case] at h
    | cons c2 s2 =>
      simp only [eq_ignoring_ascii_case, List.map_cons, List.cons.injEq] at h
      simp only [g_ascii_strcasecmp_chars, h.1, ne_eq, not_true_eq_false, if_false]
      exact ih s2 h.2

theorem strcasecmp_chars_eq_of_zero (a : List Char) :
    ∀ b, no_nul a → no_nul b → g_ascii_strcasecmp_chars a b = 0 → eq_ignoring_ascii_case a b := by
  induction a with
  | nil =>
    intro b _ hb h
    cases b with
    | nil => rfl
    | cons c2 s2 =>
      exfalso
      simp only [g_ascii_strcasecmp_chars] at h
      exact char_toNat_ne_zero c2 (hb c2 (List.mem_cons_self _ _)) (by omega)
  | cons c1 s1 ih =>
    intro b ha hb h
    cases b with
    | nil =>
      exfalso
      simp only [g_ascii_strcasecmp_chars] at h
      exact char_toNat_ne_zero c1 (ha c1 (List.mem_cons_self _ _)) (by omega)
    | cons c2 s2 =>
      simp only [g_ascii_strcasecmp_chars] at h
      by_cases hc : g_ascii_tolower c1 = g_ascii_tolower c2
      · simp only [hc, ne_eq, not_true_eq_false, if_false] at h
        have ih2 := ih s2 (fun ch hm => ha ch (List.mem_cons_of_mem _ hm))
          (fun ch hm => hb ch (List.mem_cons_of_mem _ hm)) h
        simp only [eq_ignoring_ascii_case, List.map_cons, hc, List.cons.injEq, true_and]
        exact ih2
      · exfalso
        simp only [ne_eq, hc, not_false_eq_true, if_true] at h
        exact char_toNat_sub_ne_zero _ _ hc h

/-- The search by id returns the sublist that starts at the first module whose
id differs from the one searched for. -/
theorem find_custom_by_id (list : List PanelModule) (id : Int) (h : id ≠ 0) :
    g_slist_find_custom list id lookup_modules_by_id
      = Except.ok (list.dropWhile (fun m => decide (m.id = id))) := by
  induction list with
  | nil => rfl
  | cons m rest ih =>
    by_cases hm : m.id = id
    · simp [g_slist_find_custom, lookup_modules_by_id, h, hm, bind, Except.bind, pure, Except.pure]
      simpa [hm] using ih
    · simp [g_slist_find_custom, lookup_modules_by_id, h, hm, bind, Except.bind, pure, Except.pure]

/-- C1: on the registry holding the launcher and the trash plugin (both with
id 0) and a control with id 5, no module has the id, yet `create_builtin`
invokes the launcher factory; and when a module with id 5 follows the launcher,
it is the launcher factory that runs, not the factory of that module. -/
theorem create_builtin_selects_other_id (env : Plugins) (c : Consts) :
    (∀ m ∈ sample_world.module_list, m.id ≠ 5) ∧
    create_builtin env sample_world { panel_control_new c 0 with id := 5 }
      = Except.ok
          ((env.create_control create_panel_item { panel_control_new c 0 with id := 5 }).1,
           (env.create_control create_panel_item { panel_control_new c 0 with id := 5 }).2,
           sample_world.emit (Event.create_control create_panel_item)) ∧
    create_builtin env
        { module_list := [launcher_module, { trash_module with id := 5 }], log := [] }
        { panel_control_new c 0 with id := 5 }
      = Except.ok
          ((env.create_control create_panel_item { panel_control_new c 0 with id := 5 }).1,
           (env.create_control create_panel_item { panel_control_new c 0 with id := 5 }).2,
           { module_list := [launcher_module, { trash_module with id := 5 }],
             log := [Event.create_control create_panel_item] }) := by
  refine ⟨by decide, ?_, ?_⟩
  · rfl
  · rfl

/-- A registered module with the same name, ignoring ASCII case, makes the
search with `compare_modules` succeed. -/
theorem find_custom_compare_found (list : List PanelModule) (module : PanelModule) (n : String)
    (hn : module.name = some n)
    (h : ∃ m ∈ list, ∃ n2, m.name = some n2 ∧ eq_ignoring_ascii_case n2.toList n.toList) :
    ∃ x rest, g_slist_find_custom list module compare_modules = Except.ok (x :: rest) := by
  induction list with
  | nil =>
    obtain ⟨m, hm, _⟩ := h
    cases hm
  | cons y ys ih =>
    by_cases hy : g_ascii_strcasecmp y.name module.name = 0
    · exact ⟨y, ys, by
        simp [g_slist_find_custom, compare_modules, hy, bind, Except.bind, pure, Except.pure]⟩
    · obtain ⟨m, hm, n2, hn2, heq⟩ := h
      rcases List.mem_cons.mp hm with hmy | hmys
      · exfalso
        apply hy
        rw [← hmy, hn2, hn]
        exact strcasecmp_chars_zero_of_eq _ _ heq
      · obtain ⟨x, rest, hx⟩ := ih ⟨m, hmys, n2, hn2, heq⟩
        exact ⟨x, rest, by
          simp [g_slist_find_custom, compare_modules, hy, bind, Except.bind, pure, Except.pure]
          simpa [compare_modules] using hx⟩

/-- When every registered name differs from the new one, the search with
`compare_modules` finds nothing. -/
theorem find_custom_compare_none (list : List PanelModule) (module : PanelModule) (n : String)
    (hn : module.name = some n) (hnul : no_nul n.toList)
    (h : ∀ m ∈ list, ∃ n2, m.name = some n2 ∧ no_nul n2.toList ∧
      ¬ eq_ignoring_ascii_case n2.toList n.toList) :
    g_slist_find_custom list module compare_modules = Except.ok [] := by
  induction list with
  | nil => rfl
  | cons y ys ih =>
    obtain ⟨n2, hn2, hnul2, hne⟩ := h y (List.mem_cons_self _ _)
    have hy : g_ascii_strcasecmp y.name module.name ≠ 0 := by
      rw [hn2, hn]
      intro h0
      exact hne (strcasecmp_chars_eq_of_zero _ _ hnul2 hnul h0)
    have ih2 := ih (fun m hm => h m (List.mem_cons_of_mem _ hm))
    simp [g_slist_find_custom, compare_modules, hy, bind, Except.bind, pure, Except.pure]
    simpa [compare_modules] using ih2

/-- C2: a plugin whose initializer sets a name equal, ignoring ASCII case, to a
registered name leaves `module_list` as it was; when every registered name
differs, its descriptor is appended after the existing entries. -/
theorem load_plugin_keeps_names_unique (c : Consts) (ld : Loader) (w : World) (path : String)
    (g : GModule) (init : PanelModule → PanelModule) (n : String)
    (hopen : ld.g_module_open path = some g)
    (hinit : ld.xfce_plugin_init g = some init)
    (hname : (init (fresh_module g)).name = some n) :
    ((∃ m ∈ w.module_list, ∃ n2, m.name = some n2 ∧
          eq_ignoring_ascii_case n2.toList n.toList) →
        (load_plugin c ld w path).module_list = w.module_list) ∧
    (no_nul n.toList →
      (∀ m ∈ w.module_list, ∃ n2, m.name = some n2 ∧ no_nul n2.toList ∧
          ¬ eq_ignoring_ascii_case n2.toList n.toList) →
        (load_plugin c ld w path).module_list = w.module_list ++ [init (fresh_module g)]) := by
  constructor
  · intro h
    obtain ⟨x, rest, hx⟩ := find_custom_compare_found w.module_list _ n hname h
    simp only [load_plugin, hopen, hinit, World.emit]
    simp only [fresh_module] at hx
    rw [hx]
    simp only [free_module]
    split
    · split <;> rfl
    · rfl
  · intro hnul h
    have hx := find_custom_compare_none w.module_list _ n hname hnul h
    simp only [load_plugin, hopen, hinit, World.emit]
    simp only [fresh_module] at hx
    rw [hx]
    rfl

/-- Witness for C2 on the sample registry: a second copy of the trash plugin is
rejected; on a registry with the launcher only it is appended. -/
theorem load_plugin_keeps_names_unique_witness :
    (load_plugin sample_consts trash_loader sample_world "/opt/plugins/libtrash.so").module_list
        = sample_world.module_list ∧
    (load_plugin sample_consts trash_loader { module_list := [launcher_module], log := [] }
        "/opt/plugins/libtrash.so").module_list
        = [launcher_module, trash_plugin_init (fresh_module ⟨"/opt/plugins/libtrash.so"⟩)] :=
  ⟨(load_plugin_keeps_names_unique sample_consts trash_loader sample_world
      "/opt/plugins/libtrash.so" ⟨"/opt/plugins/libtrash.so"⟩ trash_plugin_init "trash"
      rfl rfl rfl).1 ⟨trash_module, by decide, "trash", rfl, by decide⟩,
   (load_plugin_keeps_names_unique sample_consts trash_loader
      { module_list := [launcher_module], log := [] }
      "/opt/plugins/libtrash.so" ⟨"/opt/plugins/libtrash.so"⟩ trash_plugin_init "trash"
      rfl rfl rfl).2 (by decide)
      (by
        intro m hm
        have hml : m = launcher_module := by simpa using hm
        subst hml
        exact ⟨"icon", rfl, by decide, by decide⟩)⟩

/-- C3: when `load_plugin` rejects a plugin as already registered and the id
in its descriptor is not `PLUGIN`, the calls it makes are the open and the
message; the handle it opened is not closed. -/
theorem load_plugin_rejected_not_closed (c : Consts) (ld : Loader) (w : World) (path : String)
    (g : GModule) (init : PanelModule → PanelModule) (n : String)
    (hopen : ld.g_module_open path = some g)
    (hinit : ld.xfce_plugin_init g = some init)
    (hname : (init (fresh_module g)).name = some n)
    (hdup : ∃ m ∈ w.module_list, ∃ n2, m.name = some n2 ∧
      eq_ignoring_ascii_case n2.toList n.toList)
    (hid : (init (fresh_module g)).id ≠ c.PLUGIN) :
    load_plugin c ld w path =
      { module_list := w.module_list,
        log := w.log ++ [Event.g_module_open path,
          Event.g_message ("xfce4: module " ++ n ++ " has already been loaded")] } ∧
    Event.g_module_close g ∉ (load_plugin c ld w path).log.drop w.log.length := by
  obtain ⟨x, rest, hx⟩ := find_custom_compare_found w.module_list _ n hname hdup
  simp only [fresh_module] at hx hid hname
  have heq : load_plugin c ld w path =
      { module_list := w.module_list,
        log := w.log ++ [Event.g_module_open path,
          Event.g_message ("xfce4: module " ++ n ++ " has already been loaded")] } := by
    simp only [load_plugin, hopen, hinit, World.emit]
    rw [hx]
    simp only [free_module, hid, if_false, hname, fmt_s, Option.getD_some, List.append_assoc,
      List.singleton_append]
  refine ⟨heq, ?_⟩
  rw [heq]
  simp

/-- Witness for C3: the trash plugin (its initializer writes no id) found a
second time with `PLUGIN = -1`. -/
theorem load_plugin_rejected_not_closed_witness :
    load_plugin sample_consts trash_loader sample_world "/opt/plugins/libtrash.so" =
      { module_list := sample_world.module_list,
        log := sample_world.log ++ [Event.g_module_open "/opt/plugins/libtrash.so",
          Event.g_message ("xfce4: module " ++ "trash" ++ " has already been loaded")] } ∧
    Event.g_module_close ⟨"/opt/plugins/libtrash.so"⟩ ∉
      (load_plugin sample_consts trash_loader sample_world
        "/opt/plugins/libtrash.so").log.drop sample_world.log.length :=
  load_plugin_rejected_not_closed sample_consts trash_loader sample_world
    "/opt/plugins/libtrash.so" ⟨"/opt/plugins/libtrash.so"⟩ trash_plugin_init "trash"
    rfl rfl rfl ⟨trash_module, by decide, "trash", rfl, by decide⟩ (by decide)

/-- On a registry whose first module is the launcher, `create_launcher` runs
`create_panel_item`. -/
theorem create_launcher_eq (c : Consts) (env : Plugins) (w : World) (pc : PanelControl)
    (rest : List PanelModule) (hreg : w.module_list = launcher_module :: rest)
    (hicon : c.ICON ≠ 0) :
    create_launcher c env w pc =
      Except.ok ((env.create_control create_panel_item pc).2,
        w.emit (Event.create_control create_panel_item)) := by
  have hne : ¬ (launcher_module.id = c.ICON) := by
    intro h
    exact hicon (by rw [← h]; rfl)
  have hcc : launcher_module.create_control = some create_panel_item := rfl
  simp [create_launcher, find_custom_by_id _ _ hicon, hreg, hne, call_create_control,
    hcc, List.dropWhile, bind, Except.bind, pure, Except.pure]

theorem call_create_control_module_list (env : Plugins) (w : World) (li : List PanelModule)
    (pc : PanelControl) (r : Bool × PanelControl × World)
    (h : call_create_control env w li pc = Except.ok r) :
    r.2.2.module_list = w.module_list := by
  unfold call_create_control at h
  split at h
  · cases h
  · split at h
    · cases h
    · simp only [pure, Except.pure, Except.ok.injEq] at h
      rw [← h]
      rfl

theorem create_launcher_module_list (c : Consts) (env : Plugins) (w : World)
    (pc : PanelControl) (r : PanelControl × World)
    (h : create_launcher c env w pc = Except.ok r) : r.2.module_list = w.module_list := by
  unfold create_launcher at h
  cases hf : g_slist_find_custom w.module_list c.ICON lookup_modules_by_id with
  | error e => simp [hf, bind, Except.bind] at h
  | ok li =>
    cases hc : call_create_control env w li pc with
    | error e => simp [hf, hc, bind, Except.bind] at h
    | ok q =>
      simp only [hf, hc, bind, Except.bind, pure, Except.pure, Except.ok.injEq] at h
      rw [← h]
      exact call_create_control_module_list env w li pc q hc

theorem create_plugin_module_list (env : Plugins) (w : World)
    (pc : PanelControl) (r : Bool × PanelControl × World)
    (h : create_plugin env w pc = Except.ok r) : r.2.2.module_list = w.module_list := by
  unfold create_plugin at h
  cases hf : g_slist_find_custom w.module_list pc.filename lookup_modules_by_filename with
  | error e => simp [hf, bind, Except.bind] at h
  | ok li =>
    simp only [hf, bind, Except.bind] at h
    split at h
    · simp only [pure, Except.pure, Except.ok.injEq] at h
      rw [← h]
    · exact call_create_control_module_list env w li pc r h

theorem create_builtin_module_list (env : Plugins) (w : World)
    (pc : PanelControl) (r : Bool × PanelControl × World)
    (h : create_builtin env w pc = Except.ok r) : r.2.2.module_list = w.module_list := by
  unfold create_builtin at h
  cases hf : g_slist_find_custom w.module_list pc.id lookup_modules_by_id with
  | error e => simp [hf, bind, Except.bind] at h
  | ok li =>
    simp only [hf, bind, Except.bind] at h
    split at h
    · simp only [pure, Except.pure, Except.ok.injEq] at h
      rw [← h]
    · exact call_create_control_module_list env w li pc r h

/-- The switch of `create_panel_control` leaves `module_list` as it was. -/
theorem create_panel_control_switch_module_list (c : Consts) (env : Plugins) (w : World)
    (pc : PanelControl) (r : PanelControl × World)
    (h : create_panel_control_switch c env w pc = Except.ok r) :
    r.2.module_list = w.module_list := by
  unfold create_panel_control_switch at h
  split at h
  · exact create_launcher_module_list c env w pc r h
  · split at h
    · cases hp : create_plugin env w pc with
      | error e => simp [hp, bind, Except.bind] at h
      | ok q =>
        have hq := create_plugin_module_list env w pc q hp
        simp only [hp, bind, Except.bind] at h
        split at h
        · simp only [pure, Except.pure, Except.ok.injEq] at h
          rw [← h]
          exact hq
        · have hl := create_launcher_module_list c env _ _ r h
          rw [hl]
          exact hq
    · cases hp : create_builtin env w pc with
      | error e => simp [hp, bind, Except.bind] at h
      | ok q =>
        have hq := create_builtin_module_list env w pc q hp
        simp only [hp, bind, Except.bind] at h
        split at h
        · simp only [pure, Except.pure, Except.ok.injEq] at h
          rw [← h]
          exact hq
        · have hl := create_launcher_module_list c env _ _ r h
          rw [hl]
          exact hq

/-- After the switch, `create_panel_control` either falls back to the launcher
(free operation first) or goes on with the control as it is. -/
theorem create_panel_control_after_switch (c : Consts) (env : Plugins) (st : Settings)
    (w : World) (pc : PanelControl) (rest : List PanelModule) (pc1 : PanelControl) (w1 : World)
    (hreg : w.module_list = launcher_module :: rest) (hicon : c.ICON ≠ 0)
    (hsw : create_panel_control_switch c env w pc = Except.ok (pc1, w1)) :
    create_panel_control c env st w pc =
      (if lacks_required pc1 = true then
        create_panel_control_connect env st
          { module_list := w1.module_list,
            log := w1.log ++ free_events pc1 ++ [Event.create_control create_panel_item] }
          (env.create_control create_panel_item (freed_control env pc1)).2
      else create_panel_control_connect env st w1 pc1) := by
  have hml : w1.module_list = launcher_module :: rest := by
    rw [← hreg]
    exact create_panel_control_switch_module_list c env w pc (pc1, w1) hsw
  cases hl : lacks_required pc1 with
  | true =>
    simp only [create_panel_control, hsw, bind, Except.bind, create_panel_control_check, hl,
      if_true]
    cases hf : pc1.free with
    | none =>
      dsimp only
      rw [create_launcher_eq c env w1 pc1 rest hml hicon]
      simp [freed_control, free_events, hf, World.emit]
    | some f =>
      dsimp only
      rw [create_launcher_eq c env (w1.emit (Event.free f)) (env.free f pc1) rest
        (by simpa [World.emit] using hml) hicon]
      simp [freed_control, free_events, hf, World.emit]
  | false =>
    simp [create_panel_control, hsw, bind, Except.bind, create_panel_control_check, hl,
      pure, Except.pure]

/-- The function `load_plugin` only ever appends to `module_list`. -/
theorem load_plugin_extends (c : Consts) (ld : Loader) (w : World) (path : String) :
    ∃ ext, (load_plugin c ld w path).module_list = w.module_list ++ ext := by
  cases h1 : ld.g_module_open path with
  | none => exact ⟨[], by simp [load_plugin, h1, World.emit]⟩
  | some g =>
    cases h2 : ld.xfce_plugin_init g with
    | none => exact ⟨[], by simp [load_plugin, h1, h2, World.emit]⟩
    | some init =>
      cases h3 : g_slist_find_custom w.module_list
          (init { PanelModule.zeroed with gmodule := some g }) compare_modules with
      | error e =>
        refine ⟨[], ?_⟩
        simp only [load_plugin, h1, h2, World.emit, h3, free_module, List.append_nil]
        split
        · split <;> rfl
        · rfl
      | ok li =>
        cases li with
        | nil =>
          exact ⟨[init { PanelModule.zeroed with gmodule := some g }], by
            simp only [load_plugin, h1, h2, World.emit, h3, g_slist_append]⟩
        | cons x xs =>
          refine ⟨[], ?_⟩
          simp only [load_plugin, h1, h2, World.emit, h3, free_module, List.append_nil]
          split
          · split <;> rfl
          · rfl

theorem load_plugin_dir_loop_extends (c : Consts) (ld : Loader) (dir : String)
    (files : List String) :
    ∀ w, ∃ ext, (load_plugin_dir_loop c ld dir w files).module_list = w.module_list ++ ext := by
  induction files with
  | nil => exact fun w => ⟨[], by simp [load_plugin_dir_loop]⟩
  | cons file rest ih =>
    intro w
    simp only [load_plugin_dir_loop]
    split
    · obtain ⟨e1, h1⟩ := load_plugin_extends c ld w (ld.g_build_filename dir file)
      obtain ⟨e2, h2⟩ := ih (load_plugin c ld w (ld.g_build_filename dir file))
      exact ⟨e1 ++ e2, by rw [h2, h1, List.append_assoc]⟩
    · exact ih w

theorem load_plugin_dir_extends (c : Consts) (ld : Loader) (w : World) (dir : String) :
    ∃ ext, (load_plugin_dir c ld w dir).module_list = w.module_list ++ ext := by
  unfold load_plugin_dir
  split
  · exact ⟨[], by simp⟩
  · exact load_plugin_dir_loop_extends c ld dir _ w

theorem load_plugin_dirs_extend (c : Consts) (ld : Loader) (dirs : List String) :
    ∀ w, ∃ ext, (dirs.foldl (load_plugin_dir c ld) w).module_list = w.module_list ++ ext := by
  induction dirs with
  | nil => exact fun w => ⟨[], by simp⟩
  | cons d rest ih =>
    intro w
    obtain ⟨e1, h1⟩ := load_plugin_dir_extends c ld w d
    obtain ⟨e2, h2⟩ := ih (load_plugin_dir c ld w d)
    exact ⟨e1 ++ e2, by rw [List.foldl_cons, h2, h1, List.append_assoc]⟩

/-- The registry built by `modules_init` from an empty list starts with the
launcher module, whatever the scanned directories contribute. -/
theorem modules_init_head (c : Consts) (ld : Loader) (w : World) (h : w.module_list = []) :
    ∃ rest, (modules_init c ld w).module_list = launcher_module :: rest := by
  obtain ⟨ext, hext⟩ := load_plugin_dirs_extend c ld ld.get_plugin_dirs
    (add_builtin_modules (add_launcher_module w))
  exact ⟨ext, by
    simp only [modules_init]
    rw [hext]
    simp [add_builtin_modules, add_launcher_module, g_slist_append, h]⟩

/-- C5: for a saved element whose id attribute reads as `PLUGIN` and that has
no filename attribute, `panel_control_set_from_xml` on a fresh control and the
registry of `modules_init` ends in the failed assertion
`g_assert (filename != NULL)` of `lookup_modules_by_filename`. -/
theorem set_from_xml_without_filename_aborts (c : Consts) (env : Plugins) (st : Settings)
    (ld : Loader) (index : Int) (node : XmlNode) (value : String)
    (hne : c.ICON ≠ c.PLUGIN)
    (hid : xmlGetProp node "id" = some value) (hval : atoi value = c.PLUGIN)
    (hfn : xmlGetProp node "filename" = none) :
    panel_control_set_from_xml c env st (modules_init c ld initial_world)
        (panel_control_new c index) (some node)
      = Except.error Fault.assertion_failed := by
  obtain ⟨rest, hrest⟩ := modules_init_head c ld initial_world rfl
  have hne2 : ¬ (c.PLUGIN = c.ICON) := fun h => hne h.symm
  simp [panel_control_set_from_xml, panel_control_get_id_and_filename, hid, hval, hfn,
    create_panel_control, create_panel_control_switch, hne2, create_plugin, hrest,
    g_slist_find_custom, lookup_modules_by_filename, panel_control_new, bind, Except.bind,
    throw, throwThe, MonadExceptOf.throw]

/-- Witness for C5: the element with id -1 and no filename, `PLUGIN = -1`, and
a loader that scans no directory. -/
theorem set_from_xml_without_filename_aborts_witness :
    panel_control_set_from_xml sample_consts sample_plugins sample_settings
        (modules_init sample_consts trash_loader initial_world)
        (panel_control_new sample_consts 0) (some plugin_node_without_filename)
      = Except.error Fault.assertion_failed :=
  set_from_xml_without_filename_aborts sample_consts sample_plugins sample_settings
    trash_loader 0 plugin_node_without_filename "-1" (by decide) rfl (by decide) rfl

theorem set_size_log (env : Plugins) (st : Settings) (w : World) (pc : PanelControl)
    (v : Int) : ∃ t, (panel_control_set_size env st w pc v).2.log = w.log ++ t := by
  unfold panel_control_set_size
  split
  · exact ⟨_, rfl⟩
  · exact ⟨_, rfl⟩

theorem set_style_log (env : Plugins) (w : World) (pc : PanelControl)
    (v : Int) : ∃ t, (panel_control_set_style env w pc v).2.log = w.log ++ t := by
  unfold panel_control_set_style
  split
  · exact ⟨_, rfl⟩
  · exact ⟨[], by simp⟩

theorem set_theme_log (env : Plugins) (w : World) (pc : PanelControl)
    (v : String) : ∃ t, (panel_control_set_theme env w pc v).2.log = w.log ++ t := by
  unfold panel_control_set_theme
  split
  · exact ⟨_, rfl⟩
  · exact ⟨[], by simp⟩

/-- C6: `panel_control_set_settings` hands `settings.size` to the control's
set_orientation operation: the first call it makes is set_orientation with the
size class, whatever the orientation setting is; with orientation 1 and size 2
the operation receives 2. -/
theorem set_settings_orientation_receives_size (env : Plugins) (st : Settings) (w : World)
    (pc : PanelControl) (f : FnPtr) :
    (∃ tail, (panel_control_set_settings env st w { pc with set_orientation := some f }).2.log
        = w.log ++ Event.set_orientation f st.size :: tail) ∧
    sample_settings.orientation = 1 ∧
    (panel_control_set_settings sample_plugins sample_settings initial_world
        { panel_control_new sample_consts 0 with set_orientation := some 3 }).2.log
      = [Event.set_orientation 3 2, Event.gtk_widget_set_size_request 52 52] := by
  refine ⟨?_, rfl, rfl⟩
  have h0 : ∀ p : PanelControl, (panel_control_set_orientation env w { p with set_orientation := some f }
      st.size).2.log = w.log ++ [Event.set_orientation f st.size] := fun p => rfl
  obtain ⟨t1, h1⟩ := set_size_log env st
    (panel_control_set_orientation env w { pc with set_orientation := some f } st.size).2
    (panel_control_set_orientation env w { pc with set_orientation := some f } st.size).1 st.size
  obtain ⟨t2, h2⟩ := set_style_log env
    (panel_control_set_size env st
      (panel_control_set_orientation env w { pc with set_orientation := some f } st.size).2
      (panel_control_set_orientation env w { pc with set_orientation := some f } st.size).1
      st.size).2
    (panel_control_set_size env st
      (panel_control_set_orientation env w { pc with set_orientation := some f } st.size).2
      (panel_control_set_orientation env w { pc with set_orientation := some f } st.size).1
      st.size).1 st.style
  rw [h1, h0] at h2
  cases ht : st.theme with
  | none =>
    refine ⟨t1 ++ t2, ?_⟩
    simp only [panel_control_set_settings, ht]
    rw [h2]
    simp
  | some theme =>
    obtain ⟨t3, h3⟩ := set_theme_log env
      (panel_control_set_style env
        (panel_control_set_size env st
          (panel_control_set_orientation env w { pc with set_orientation := some f } st.size).2
          (panel_control_set_orientation env w { pc with set_orientation := some f } st.size).1
          st.size).2
        (panel_control_set_size env st
          (panel_control_set_orientation env w { pc with set_orientation := some f } st.size).2
          (panel_control_set_orientation env w { pc with set_orientation := some f } st.size).1
          st.size).1 st.style).2
      (panel_control_set_style env
        (panel_control_set_size env st
          (panel_control_set_orientation env w { pc with set_orientation := some f } st.size).2
          (panel_control_set_orientation env w { pc with set_orientation := some f } st.size).1
          st.size).2
        (panel_control_set_size env st
          (panel_control_set_orientation env w { pc with set_orientation := some f } st.size).2
          (panel_control_set_orientation env w { pc with set_orientation := some f } st.size).1
          st.size).1 st.style).1 theme
    rw [h2] at h3
    refine ⟨t1 ++ t2 ++ t3, ?_⟩
    simp only [panel_control_set_settings, ht]
    rw [h3]
    simp

theorem strip_trailing_slashes_subset (s : List Char) (ch : Char)
    (h : ch ∈ strip_trailing_slashes s) : ch ∈ s := by
  unfold strip_trailing_slashes at h
  have h1 := List.dropWhile_subset (fun ch => decide (ch = '/')) (List.mem_reverse.mp h)
  exact List.mem_reverse.mp h1

theorem last_component_subset (s : List Char) (ch : Char)
    (h : ch ∈ last_component s) : ch ∈ s := by
  unfold last_component at h
  have h1 := List.takeWhile_subset (fun ch => decide (ch ≠ '/')) (List.mem_reverse.mp h)
  exact List.mem_reverse.mp h1

/-- The base name of a path without NUL characters has none either. -/
theorem g_path_get_basename_no_nul (s : String) (h : no_nul s.toList) :
    no_nul (g_path_get_basename s).toList := by
  intro ch hch
  simp only [g_path_get_basename, String.toList] at hch
  unfold g_path_get_basename_chars at hch
  split at hch
  · have : ch = '.' := by simpa using hch
    rw [this]
    decide
  · split at hch
    · have : ch = '/' := by simpa using hch
      rw [this]
      decide
    · exact h ch (strip_trailing_slashes_subset _ _ (last_component_subset _ _ hch))

/-- The comparator of the search by filename returns 0 exactly on the modules
that `matches_filename` accepts. -/
theorem lookup_modules_by_filename_spec (m : PanelModule) (fname : String)
    (hnul : no_nul fname.toList)
    (hpath : ∀ gm, m.gmodule = some gm → no_nul gm.file_name.toList) :
    ∃ r, lookup_modules_by_filename m (some fname) = Except.ok r ∧
      (r = 0 ↔ matches_filename fname m = true) := by
  cases hg : m.gmodule with
  | none =>
    exact ⟨-1, by simp [lookup_modules_by_filename, hg, pure, Except.pure],
      by simp [matches_filename, hg]⟩
  | some gm =>
    refine ⟨g_ascii_strcasecmp (some (g_path_get_basename (g_module_name gm))) (some fname),
      by simp [lookup_modules_by_filename, hg, pure, Except.pure], ?_⟩
    simp only [matches_filename, hg, decide_eq_true_eq, g_ascii_strcasecmp]
    constructor
    · exact strcasecmp_chars_eq_of_zero _ _
        (g_path_get_basename_no_nul _ (hpath gm hg)) hnul
    · exact strcasecmp_chars_zero_of_eq _ _

/-- The search by filename returns the sublist that starts at the first module
accepted by `matches_filename`. -/
theorem find_custom_by_filename_spec (fname : String) (hnul : no_nul fname.toList)
    (list : List PanelModule)
    (hpaths : ∀ m ∈ list, ∀ gm, m.gmodule = some gm → no_nul gm.file_name.toList) :
    (∀ m, list.find? (matches_filename fname) = some m →
      ∃ ms, g_slist_find_custom list (some fname) lookup_modules_by_filename
        = Except.ok (m :: ms)) ∧
    (list.find? (matches_filename fname) = none →
      g_slist_find_custom list (some fname) lookup_modules_by_filename = Except.ok []) := by
  induction list with
  | nil => exact ⟨fun m h => by simp at h, fun _ => rfl⟩
  | cons x xs ih =>
    obtain ⟨r, hr, hiff⟩ := lookup_modules_by_filename_spec x fname hnul
      (hpaths x (List.mem_cons_self _ _))
    have ih2 := ih (fun m hm => hpaths m (List.mem_cons_of_mem _ hm))
    cases hx : matches_filename fname x with
    | true =>
      have hr0 : r = 0 := hiff.mpr hx
      constructor
      · intro m hm
        simp only [List.find?, hx, Option.some.injEq] at hm
        subst hm
        exact ⟨xs, by
          simp [g_slist_find_custom, hr, hr0, bind, Except.bind, pure, Except.pure]⟩
      · intro hn
        simp [List.find?, hx] at hn
    | false =>
      have hr0 : r ≠ 0 := fun h0 => by
        have := hiff.mp h0
        rw [hx] at this
        cases this
      constructor
      · intro m hm
        simp only [List.find?, hx] at hm
        obtain ⟨ms, hms⟩ := ih2.1 m hm
        exact ⟨ms, by
          simp [g_slist_find_custom, hr, hr0, bind, Except.bind, pure, Except.pure]
          exact hms⟩
      · intro hn
        simp only [List.find?, hx] at hn
        simp [g_slist_find_custom, hr, hr0, bind, Except.bind, pure, Except.pure]
        exact ih2.2 hn

/-- C8: for a non-NULL filename, `create_plugin` invokes the factory of the
first registered module that has a library handle and whose library base name
equals the filename ignoring ASCII case; it returns FALSE and invokes nothing
when there is no such module; a module without a handle is answered -1 by the
comparator and never matches. -/
theorem create_plugin_first_by_filename (env : Plugins) (w : World) (pc : PanelControl)
    (fname : String) (hfn : pc.filename = some fname) (hnul : no_nul fname.toList)
    (hpaths : ∀ m ∈ w.module_list, ∀ gm, m.gmodule = some gm → no_nul gm.file_name.toList) :
    (∀ m f, w.module_list.find? (matches_filename fname) = some m →
      m.create_control = some f →
      create_plugin env w pc = Except.ok ((env.create_control f pc).1,
        (env.create_control f pc).2, w.emit (Event.create_control f))) ∧
    (w.module_list.find? (matches_filename fname) = none →
      create_plugin env w pc = Except.ok (false, pc, w)) ∧
    (∀ m, m.gmodule = none →
      lookup_modules_by_filename m (some fname) = Except.ok (-1) ∧
      matches_filename fname m = false) := by
  obtain ⟨h1, h2⟩ := find_custom_by_filename_spec fname hnul w.module_list hpaths
  refine ⟨?_, ?_, ?_⟩
  · intro m f hm hf
    obtain ⟨ms, hms⟩ := h1 m hm
    simp [create_plugin, hfn, hms, call_create_control, hf, bind, Except.bind, pure,
      Except.pure]
  · intro hn
    simp [create_plugin, hfn, h2 hn, bind, Except.bind, pure, Except.pure]
  · intro m hg
    exact ⟨by simp [lookup_modules_by_filename, hg, pure, Except.pure],
      by simp [matches_filename, hg]⟩

/-- Witness for C8 on the sample registry: "LIBTRASH.SO" selects the trash
factory, "libclock.so" selects nothing, and the launcher never matches. -/
theorem create_plugin_first_by_filename_witness :
    create_plugin sample_plugins sample_world
        { trash_control with filename := some "LIBTRASH.SO" }
      = Except.ok
          ((sample_plugins.create_control create_trash_control
              { trash_control with filename := some "LIBTRASH.SO" }).1,
           (sample_plugins.create_control create_trash_control
              { trash_control with filename := some "LIBTRASH.SO" }).2,
           sample_world.emit (Event.create_control create_trash_control)) ∧
    create_plugin sample_plugins sample_world
        { trash_control with filename := some "libclock.so" }
      = Except.ok (false, { trash_control with filename := some "libclock.so" }, sample_world) ∧
    lookup_modules_by_filename launcher_module (some "LIBTRASH.SO") = Except.ok (-1) :=
  have hp : ∀ m ∈ sample_world.module_list, ∀ gm, m.gmodule = some gm →
      no_nul gm.file_name.toList := by
    intro m hm gm hg
    have hcases : m = launcher_module ∨ m = trash_module := by
      simpa [sample_world] using hm
    rcases hcases with h | h
    · subst h
      cases hg
    · subst h
      have : gm = trash_gmodule := by
        have h2 : some trash_gmodule = some gm := hg
        exact (Option.some.inj h2).symm
      subst this
      decide
  ⟨(create_plugin_first_by_filename sample_plugins sample_world
      { trash_control with filename := some "LIBTRASH.SO" } "LIBTRASH.SO" rfl (by decide) hp).1
      trash_module create_trash_control (by decide) rfl,
   (create_plugin_first_by_filename sample_plugins sample_world
      { trash_control with filename := some "libclock.so" } "libclock.so" rfl (by decide) hp).2.1
      (by decide),
   ((create_plugin_first_by_filename sample_plugins sample_world
      { trash_control with filename := some "LIBTRASH.SO" } "LIBTRASH.SO" rfl (by decide) hp).2.2
      launcher_module rfl).1⟩

theorem to_int32_of_range (x : Int) (h1 : -2147483648 ≤ x) (h2 : x < 2147483648) :
    to_int32 x = x := by
  unfold to_int32
  omega

/-- Without overflow and with every `stat` succeeding, the loop of
`check_trash` counts the entries and sums their sizes. -/
theorem scan_loop_exact (fs : TrashFs) (files : List String) :
    ∀ v : ScanVars,
      (∀ file ∈ files, ∃ sz, fs.stat file = some sz ∧ 0 ≤ sz) →
      0 ≤ v.number → 0 ≤ v.size →
      v.number + files.length < 2147483648 →
      v.size + sum_of_sizes fs files < 2147483648 →
      (scan_loop fs v files).number = v.number + files.length ∧
      (scan_loop fs v files).size = v.size + sum_of_sizes fs files := by
  induction files with
  | nil =>
    intro v _ _ _ _ _
    simp [scan_loop, sum_of_sizes]
  | cons file rest ih =>
    intro v hst hn hs hlen hsum
    obtain ⟨sz, hsz, hpos⟩ := hst file (List.mem_cons_self _ _)
    have hrest : ∀ f ∈ rest, ∃ sz, fs.stat f = some sz ∧ 0 ≤ sz :=
      fun f hf => hst f (List.mem_cons_of_mem _ hf)
    have hsumcons : sum_of_sizes fs (file :: rest) = sz + sum_of_sizes fs rest := by
      simp [sum_of_sizes, List.filterMap_cons, hsz]
    have hnonneg : ∀ l : List String, (∀ f ∈ l, ∃ sz, fs.stat f = some sz ∧ 0 ≤ sz) →
        0 ≤ sum_of_sizes fs l := by
      intro l
      induction l with
      | nil => intro _; simp [sum_of_sizes]
      | cons a t iht =>
        intro hl
        obtain ⟨sa, hsa, hpa⟩ := hl a (List.mem_cons_self _ _)
        have := iht (fun f hf => hl f (List.mem_cons_of_mem _ hf))
        simp only [sum_of_sizes, List.filterMap_cons, hsa, List.sum_cons] at this ⊢
        omega
    have hr0 := hnonneg rest hrest
    rw [hsumcons] at hsum ⊢
    simp only [List.length_cons, Nat.cast_add, Nat.cast_one] at hlen ⊢
    have e1 : to_int32 (v.number + 1) = v.number + 1 := to_int32_of_range _ (by omega) (by omega)
    have e2 : to_int32 (v.size + sz) = v.size + sz := to_int32_of_range _ (by omega) (by omega)
    simp only [scan_loop, hsz, e1, e2]
    obtain ⟨i1, i2⟩ := ih { st_size := sz, number := v.number + 1, size := v.size + sz } hrest
      (by simp only; omega) (by simp only; omega) (by simp only; omega) (by simp only; omega)
    simp only at i1 i2
    constructor
    · rw [i1]; omega
    · rw [i2]; omega

/-- A poll that cannot open the directory, or reads no entry from it, leaves
the state EMPTY; a poll that reads at least one entry leaves it FULL. -/
theorem check_trash_state (fs : TrashFs) (garbage : Int) (trash : t_trash) (dirname : String)
    (hdir : trash.dirname = some dirname) :
    (check_trash fs garbage trash).empty =
      match fs.g_dir_open dirname with
      | some (_ :: _) => false
      | _ => true := by
  cases hopen : fs.g_dir_open dirname with
  | none => cases he : trash.empty <;> simp [check_trash, hdir, hopen, he]
  | some l =>
    cases l with
    | nil => cases he : trash.empty <;> simp [check_trash, hdir, hopen, he]
    | cons f r => cases he : trash.empty <;> simp [check_trash, hdir, hopen, he]

/-- C9: with two entries of 1 GiB each the sizes add up to 2147483648, but the
`int` accumulator of `check_trash` wraps and the tooltip shows -2147483648
bytes; with an entry of 5 bytes followed by an entry on which `stat` fails, the
stale buffer is added again and the tooltip shows 10 bytes for a sum of 5. -/
theorem check_trash_total_diverges (garbage : Int) :
    sum_of_sizes two_gib_fs ["a.iso", "b.iso"] = 2147483648 ∧
    check_trash two_gib_fs garbage sample_trash =
      { sample_trash with
        empty := false, shows_full_pb := true,
        tooltip := "Trashcan: 2 files / -2147483648 B" } ∧
    sum_of_sizes stale_stat_fs ["note.txt", "dangling-link"] = 5 ∧
    check_trash stale_stat_fs garbage sample_trash =
      { sample_trash with
        empty := false, shows_full_pb := true,
        tooltip := "Trashcan: 2 files / 10 B" } := by
  have h1 : scan_loop two_gib_fs { st_size := garbage, number := 0, size := 0 }
      ["a.iso", "b.iso"] = { st_size := 1073741824, number := 2, size := -2147483648 } := by
    simp only [scan_loop, two_gib_fs]
    decide
  have h2 : scan_loop stale_stat_fs { st_size := garbage, number := 0, size := 0 }
      ["note.txt", "dangling-link"] = { st_size := 5, number := 2, size := 10 } := by
    have s1 : stale_stat_fs.stat "note.txt" = some 5 := by decide
    have s2 : stale_stat_fs.stat "dangling-link" = none := by decide
    simp only [scan_loop, s1, s2]
    decide
  have t1 : tooltip_text 2 (-2147483648) = "Trashcan: 2 files / -2147483648 B" := by decide
  have t2 : tooltip_text 2 10 = "Trashcan: 2 files / 10 B" := by decide
  refine ⟨by decide, ?_, by decide, ?_⟩
  · have o : two_gib_fs.g_dir_open "/home/user/.xfce/trash" = some ["a.iso", "b.iso"] := rfl
    simp only [check_trash, sample_trash, o, if_true]
    rw [h1]
    simp only [t1]
  · have o : stale_stat_fs.g_dir_open "/home/user/.xfce/trash"
        = some ["note.txt", "dangling-link"] := rfl
    simp only [check_trash, sample_trash, o, if_true]
    rw [h2]
    simp only [t2]

/-- The text chosen by `check_trash` is the one the specification words. -/
theorem tooltip_text_eq_by_magnitude (number s : Int) :
    tooltip_text number s = tooltip_by_magnitude number s := by
  unfold tooltip_text tooltip_by_magnitude
  by_cases h1 : s < 1024
  · simp only [h1, if_true]
  · by_cases h2 : s < 1048576
    · have h2b : s < 1024 * 1024 := by omega
      rw [if_neg h1, if_neg h1, if_pos h2b, if_pos h2,
        Int.tdiv_eq_ediv (by omega) (by decide)]
    · have h2b : ¬ s < 1024 * 1024 := by omega
      have e : (1024 * 1024 : Int) = 1048576 := by norm_num
      rw [if_neg h1, if_neg h1, if_neg h2b, if_neg h2, e,
        Int.tdiv_eq_ediv (by omega) (by decide)]

/-- C10: after a poll that read at least one entry, the tooltip shows the
total the loop computed in bytes below 1024, divided by 1024 in KB below
1048576, and divided by 1048576 in MB from there on; 0 and 1023 are shown in
B, 1024 and 1048575 in KB, 1048576 in MB. -/
theorem check_trash_tooltip_units (fs : TrashFs) (garbage : Int) (trash : t_trash)
    (dirname file : String) (rest : List String)
    (hdir : trash.dirname = some dirname)
    (hopen : fs.g_dir_open dirname = some (file :: rest)) :
    (check_trash fs garbage trash).tooltip =
      tooltip_by_magnitude
        (scan_loop fs { st_size := garbage, number := 0, size := 0 } (file :: rest)).number
        (scan_loop fs { st_size := garbage, number := 0, size := 0 } (file :: rest)).size ∧
    (∀ n : Int,
      tooltip_text n 0 = "Trashcan: " ++ String.mk (fmt_d n) ++ " files / " ++ "0" ++ " B" ∧
      tooltip_text n 1023 = "Trashcan: " ++ String.mk (fmt_d n) ++ " files / " ++ "1023" ++ " B" ∧
      tooltip_text n 1024 = "Trashcan: " ++ String.mk (fmt_d n) ++ " files / " ++ "1" ++ " KB" ∧
      tooltip_text n 1048575
        = "Trashcan: " ++ String.mk (fmt_d n) ++ " files / " ++ "1023" ++ " KB" ∧
      tooltip_text n 1048576
        = "Trashcan: " ++ String.mk (fmt_d n) ++ " files / " ++ "1" ++ " MB") := by
  constructor
  · rw [← tooltip_text_eq_by_magnitude]
    simp only [check_trash, hdir, hopen]
  · intro n
    have e0 : String.mk (fmt_d 0) = "0" := by decide
    have e1 : String.mk (fmt_d 1023) = "1023" := by decide
    have e2 : String.mk (fmt_d (Int.tdiv 1024 1024)) = "1" := by decide
    have e3 : String.mk (fmt_d (Int.tdiv 1048575 1024)) = "1023" := by decide
    have e4 : String.mk (fmt_d (Int.tdiv 1048576 (1024 * 1024))) = "1" := by decide
    refine ⟨?_, ?_, ?_, ?_, ?_⟩
    · unfold tooltip_text
      rw [if_pos (by decide), e0]
    · unfold tooltip_text
      rw [if_pos (by decide), e1]
    · unfold tooltip_text
      rw [if_neg (by decide), if_pos (by decide), e2]
    · unfold tooltip_text
      rw [if_neg (by decide), if_pos (by decide), e3]
    · unfold tooltip_text
      rw [if_neg (by decide), if_neg (by decide), e4]

/-- Witness for C10: three entries of 500 bytes are shown as 1 KB. -/
theorem check_trash_tooltip_units_witness :
    (check_trash small_fs 0 sample_trash).tooltip = "Trashcan: 3 files / 1 KB" ∧
    tooltip_text 3 1048575
      = "Trashcan: " ++ String.mk (fmt_d 3) ++ " files / " ++ "1023" ++ " KB" :=
  have h := check_trash_tooltip_units small_fs 0 sample_trash "/home/user/.xfce/trash" "a"
    ["b", "c"] rfl rfl
  ⟨h.1.trans (by decide), (h.2 3).2.2.2.1⟩

/-- C11: `xfce_plugin_check_version` returns NULL exactly for version 2, the
host's `API_VERSION`, and the non-empty message "Incompatible plugin version"
exactly for every other version. -/
theorem xfce_plugin_check_version_spec (version : Int) :
    API_VERSION = 2 ∧
    (xfce_plugin_check_version version = none ↔ version = 2) ∧
    (xfce_plugin_check_version version = some "Incompatible plugin version" ↔ version ≠ 2) ∧
    "Incompatible plugin version" ≠ "" := by
  refine ⟨rfl, ?_, ?_, by decide⟩
  · by_cases h : version = 2
    · simp [xfce_plugin_check_version, API_VERSION, h]
    · simp [xfce_plugin_check_version, API_VERSION, h]
  · by_cases h : version = 2
    · simp [xfce_plugin_check_version, API_VERSION, h]
    · simp [xfce_plugin_check_version, API_VERSION, h]

/-- The search for `ICON` on a registry headed by the launcher module returns
the node of the launcher module. -/
theorem find_launcher_at_head (c : Consts) (rest : List PanelModule) (hicon : c.ICON ≠ 0) :
    g_slist_find_custom (launcher_module :: rest) c.ICON lookup_modules_by_id
      = Except.ok (launcher_module :: rest) := by
  have hne : ¬ (launcher_module.id = c.ICON) := by
    intro h
    exact hicon (by rw [← h]; rfl)
  rw [find_custom_by_id _ _ hicon]
  simp [List.dropWhile, hne]

/-- C12: on the registry that `modules_init` builds from an empty list,
whatever the scanned directories contribute, the first entry is the launcher
module named "icon"; the lookup of `create_launcher` returns that entry, so
every call of `create_launcher` runs `create_panel_item`; and for a control
with id `ICON` the only factory that `create_panel_control` invokes, in the
switch and in the fallback, is `create_panel_item`. -/
theorem create_launcher_uses_icon_module (c : Consts) (env : Plugins) (st : Settings)
    (ld : Loader) (w : World) (pc : PanelControl)
    (hempty : w.module_list = []) (hicon : c.ICON ≠ 0) :
    launcher_module.name = some "icon" ∧
    launcher_module.gmodule = none ∧
    launcher_module.create_control = some create_panel_item ∧
    (∃ rest, (modules_init c ld w).module_list = launcher_module :: rest ∧
      g_slist_find_custom (modules_init c ld w).module_list c.ICON lookup_modules_by_id
        = Except.ok (launcher_module :: rest)) ∧
    (∀ w2 p, w2.module_list = (modules_init c ld w).module_list →
      create_launcher c env w2 p =
        Except.ok ((env.create_control create_panel_item p).2,
          w2.emit (Event.create_control create_panel_item))) ∧
    (pc.id = c.ICON →
      create_panel_control c env st (modules_init c ld w) pc =
        (if lacks_required (env.create_control create_panel_item pc).2 = true then
          create_panel_control_connect env st
            { module_list := (modules_init c ld w).module_list,
              log := (modules_init c ld w).log ++ [Event.create_control create_panel_item]
                ++ free_events (env.create_control create_panel_item pc).2
                ++ [Event.create_control create_panel_item] }
            (env.create_control create_panel_item
              (freed_control env (env.create_control create_panel_item pc).2)).2
        else
          create_panel_control_connect env st
            ((modules_init c ld w).emit (Event.create_control create_panel_item))
            (env.create_control create_panel_item pc).2)) := by
  obtain ⟨rest, hrest⟩ := modules_init_head c ld w hempty
  refine ⟨rfl, rfl, rfl, ⟨rest, hrest, ?_⟩, ?_, ?_⟩
  · rw [hrest]
    exact find_launcher_at_head c rest hicon
  · intro w2 p hw2
    exact create_launcher_eq c env w2 p rest (hw2.trans hrest) hicon
  · intro hid
    have hsw : create_panel_control_switch c env (modules_init c ld w) pc =
        Except.ok ((env.create_control create_panel_item pc).2,
          (modules_init c ld w).emit (Event.create_control create_panel_item)) := by
      simp only [create_panel_control_switch, hid, if_true]
      exact create_launcher_eq c env _ pc rest hrest hicon
    rw [create_panel_control_after_switch c env st (modules_init c ld w) pc rest _ _ hrest
      hicon hsw]
    simp [World.emit]

/-- Witness for C12: a scan that registers the trash plugin after the
launcher; a fresh control (id `ICON`) is built by `create_panel_item` alone. -/
theorem create_launcher_uses_icon_module_witness :
    (modules_init sample_consts scanning_loader initial_world).module_list
      = [launcher_module,
         trash_plugin_init (fresh_module ⟨"/usr/lib/xfce4/panel-plugins/libtrash.so"⟩)] ∧
    create_launcher sample_consts sample_plugins
        (modules_init sample_consts scanning_loader initial_world)
        (panel_control_new sample_consts 0)
      = Except.ok
          ((sample_plugins.create_control create_panel_item
              (panel_control_new sample_consts 0)).2,
           (modules_init sample_consts scanning_loader initial_world).emit
              (Event.create_control create_panel_item)) ∧
    create_panel_control sample_consts sample_plugins sample_settings
        (modules_init sample_consts scanning_loader initial_world)
        (panel_control_new sample_consts 0)
      = create_panel_control_connect sample_plugins sample_settings
          ((modules_init sample_consts scanning_loader initial_world).emit
            (Event.create_control create_panel_item))
          (sample_plugins.create_control create_panel_item
            (panel_control_new sample_consts 0)).2 :=
  have h := create_launcher_uses_icon_module sample_consts sample_plugins sample_settings
    scanning_loader initial_world (panel_control_new sample_consts 0) rfl (by decide)
  ⟨by decide, h.2.2.2.2.1 _ _ rfl, (h.2.2.2.2.2 rfl).trans rfl⟩

end Xfce4Panel
